import Mathlib

/-!
Shallow embedding of the hardware-acceleration negotiation core of an
FFmpeg-based video capture module (cap_ffmpeg_hw.hpp).

Conventions of the embedding:
* External FFmpeg library calls (device creation, context derivation,
  frame-pool allocation and initialization, codec enumeration) are
  modelled as oracle parameters, so every theorem quantifies over all
  possible behaviors of the external library.
* Platform conditional compilation (`#ifdef _WIN32`) is modelled by an
  explicit `win32 : Bool` parameter.
* `std::string` becomes `String`; a `NULL` C pointer becomes `none`.
* The `std::getline(stream, tok, comma)` tokenization loop guarded by
  `stream.good()` yields for input `s` exactly the token sequence
  `splitComma s` defined below: the empty input yields one empty token,
  and a trailing comma yields a trailing empty token.
-/

/-- Acceleration preference enum from cap_ffmpeg_hw.hpp lines 17-27. -/
inductive VideoAccelerationType where
  | VIDEO_ACCELERATION_NONE
  | VIDEO_ACCELERATION_ANY
  | VIDEO_ACCELERATION_D3D11
  | VIDEO_ACCELERATION_VAAPI
  | VIDEO_ACCELERATION_MFX
  deriving DecidableEq

open VideoAccelerationType

/-- FFmpeg hardware device types used by this file (AVHWDeviceType). -/
inductive AVHWDeviceType where
  | AV_HWDEVICE_TYPE_NONE
  | AV_HWDEVICE_TYPE_VAAPI
  | AV_HWDEVICE_TYPE_QSV
  | AV_HWDEVICE_TYPE_D3D11VA
  | AV_HWDEVICE_TYPE_DXVA2
  | AV_HWDEVICE_TYPE_CUDA
  deriving DecidableEq

open AVHWDeviceType

/-- FFmpeg pixel formats used by this file. `AV_PIX_FMT_OTHER n` stands
for any pixel format not named explicitly in the source. -/
inductive AVPixelFormat where
  | AV_PIX_FMT_NONE
  | AV_PIX_FMT_NV12
  | AV_PIX_FMT_VAAPI_VLD
  | AV_PIX_FMT_CUDA
  | AV_PIX_FMT_OTHER (n : Nat)
  deriving DecidableEq

open AVPixelFormat

/-- HW_DEFAULT_SW_FORMAT (line 30). -/
def HW_DEFAULT_SW_FORMAT : AVPixelFormat := AV_PIX_FMT_NV12

/-- HW_DEFAULT_POOL_SIZE (line 29). -/
def HW_DEFAULT_POOL_SIZE : Nat := 32

/-- av_hwdevice_get_type_name: registered FFmpeg name of a device type.
For AV_HWDEVICE_TYPE_NONE FFmpeg returns NULL; the source never calls
the function with NONE on the paths modelled here, so we map it to the
empty string. -/
def av_hwdevice_get_type_name : AVHWDeviceType → String
  | AV_HWDEVICE_TYPE_NONE => ""
  | AV_HWDEVICE_TYPE_VAAPI => "vaapi"
  | AV_HWDEVICE_TYPE_QSV => "qsv"
  | AV_HWDEVICE_TYPE_D3D11VA => "d3d11va"
  | AV_HWDEVICE_TYPE_DXVA2 => "dxva2"
  | AV_HWDEVICE_TYPE_CUDA => "cuda"

/-- An AVDictionary is modelled as an association list of key/value
pairs in insertion order. -/
def AVDictionary := List (String × String)

/-- ASCII lower-casing of one character, as av_strcasecmp does. -/
def asciiLower (c : Char) : Char :=
  if 65 ≤ c.toNat ∧ c.toNat ≤ 90 then Char.ofNat (c.toNat + 32) else c

/-- Case-insensitive ASCII string comparison (av_strcasecmp equality). -/
def strCaseEq (a b : String) : Bool :=
  a.data.map asciiLower == b.data.map asciiLower

/-- av_dict_get with flags 0: first entry whose key matches
case-insensitively, as FFmpeg does by default. -/
def av_dict_get (dict : AVDictionary) (key : String) : Option String :=
  (List.find? (fun e => strCaseEq e.1 key) dict).map (fun e => e.2)

/-- getVideoAccelerationName (lines 41-53). The fall-through value
"unknown" is unreachable for the closed enum. -/
def getVideoAccelerationName : VideoAccelerationType → String
  | VIDEO_ACCELERATION_NONE => "none"
  | VIDEO_ACCELERATION_ANY => "any"
  | VIDEO_ACCELERATION_D3D11 => "d3d11"
  | VIDEO_ACCELERATION_VAAPI => "vaapi"
  | VIDEO_ACCELERATION_MFX => "mfx"

/-- getDecoderConfiguration (lines 55-92), with the platform branch
explicit in `win32`. -/
def getDecoderConfiguration (win32 : Bool) (va_type : VideoAccelerationType)
    (dict : AVDictionary) : String :=
  let va_name := getVideoAccelerationName va_type
  let key_name := "hw_decoders_" ++ va_name
  match av_dict_get dict key_name with
  | some hw_acceleration => hw_acceleration
  | none =>
    if win32 then
      match va_type with
      | VIDEO_ACCELERATION_NONE => ""
      | VIDEO_ACCELERATION_ANY => "d3d11va"
      | VIDEO_ACCELERATION_D3D11 => "d3d11va"
      | VIDEO_ACCELERATION_VAAPI => ""
      | VIDEO_ACCELERATION_MFX => ""
    else
      match va_type with
      | VIDEO_ACCELERATION_NONE => ""
      | VIDEO_ACCELERATION_ANY => "vaapi.iHD"
      | VIDEO_ACCELERATION_D3D11 => ""
      | VIDEO_ACCELERATION_VAAPI => "vaapi.iHD"
      | VIDEO_ACCELERATION_MFX => "qsv.iHD"

/-- getEncoderConfiguration (lines 94-131). The non-win32 fall-through
value "unknown" is unreachable for the closed enum. -/
def getEncoderConfiguration (win32 : Bool) (va_type : VideoAccelerationType)
    (dict : AVDictionary) : String :=
  let va_name := getVideoAccelerationName va_type
  let key_name := "hw_encoders_" ++ va_name
  match av_dict_get dict key_name with
  | some hw_acceleration => hw_acceleration
  | none =>
    if win32 then
      match va_type with
      | VIDEO_ACCELERATION_NONE => ""
      | VIDEO_ACCELERATION_ANY => "qsv"
      | VIDEO_ACCELERATION_D3D11 => ""
      | VIDEO_ACCELERATION_VAAPI => ""
      | VIDEO_ACCELERATION_MFX => "qsv"
    else
      match va_type with
      | VIDEO_ACCELERATION_NONE => ""
      | VIDEO_ACCELERATION_ANY => "qsv.iHD,vaapi.iHD"
      | VIDEO_ACCELERATION_D3D11 => ""
      | VIDEO_ACCELERATION_VAAPI => "vaapi.iHD"
      | VIDEO_ACCELERATION_MFX => "qsv.iHD"

/-- getDecoderDisabledCodecs (lines 133-153). -/
def getDecoderDisabledCodecs (win32 : Bool) (dict : AVDictionary) : String :=
  match av_dict_get dict "hw_disable_decoders" with
  | some disabled_codecs => disabled_codecs
  | none =>
    if win32 then "none"
    else "av1.vaapi,av1_qsv,vp8.vaapi,vp8_qsv"

/-- getEncoderDisabledCodecs (lines 155-175). -/
def getEncoderDisabledCodecs (win32 : Bool) (dict : AVDictionary) : String :=
  match av_dict_get dict "hw_disabled_encoders" with
  | some disabled_codecs => disabled_codecs
  | none =>
    if win32 then "mjpeg_qsv"
    else "mjpeg_vaapi,mjpeg_qsv,vp8_vaapi"

/-- updateAccelList_ target (lines 565-577) applied once to an empty
accumulator, which is the only way the HWAccelIterator constructor uses
it: the resulting fragment for the given preference and role. -/
def candidateBase (va_type : VideoAccelerationType) (isEncoder win32 : Bool)
    (dict : AVDictionary) : String :=
  if isEncoder then getEncoderConfiguration win32 va_type dict
  else getDecoderConfiguration win32 va_type dict

/-- The accel_list string assembled by the HWAccelIterator constructor
(lines 511-520): the fragment for non-NONE preferences, and for ANY a
trailing comma appended only when the fragment is non-empty (the source
guards the append with an emptiness check). -/
def resolvedAccelList (va_type : VideoAccelerationType) (isEncoder win32 : Bool)
    (dict : AVDictionary) : String :=
  let accel_list :=
    if va_type ≠ VIDEO_ACCELERATION_NONE then candidateBase va_type isEncoder win32 dict
    else ""
  if va_type = VIDEO_ACCELERATION_ANY ∧ accel_list ≠ "" then accel_list ++ ","
  else accel_list

/-- Role-specific configuration override key, written from the spec
wording (key derived from the preference name and role). -/
def specConfigKey (isEncoder : Bool) (va_type : VideoAccelerationType) : String :=
  (if isEncoder then "hw_encoders_" else "hw_decoders_") ++ getVideoAccelerationName va_type

/-- Built-in per-platform default fragment table, written from the spec
wording (a default table keyed by preference and role per platform). -/
def specDefaultFragment (win32 isEncoder : Bool) : VideoAccelerationType → String
  | VIDEO_ACCELERATION_NONE => ""
  | VIDEO_ACCELERATION_ANY =>
      if win32 then (if isEncoder then "qsv" else "d3d11va")
      else (if isEncoder then "qsv.iHD,vaapi.iHD" else "vaapi.iHD")
  | VIDEO_ACCELERATION_D3D11 => if win32 ∧ ¬ isEncoder then "d3d11va" else ""
  | VIDEO_ACCELERATION_VAAPI => if win32 then "" else "vaapi.iHD"
  | VIDEO_ACCELERATION_MFX =>
      if win32 then (if isEncoder then "qsv" else "") else "qsv.iHD"

/-- String containment on character lists: true iff the second list
occurs as a contiguous run inside the first. -/
def listContainsSub (pat : List Char) : List Char → Bool
  | [] => pat.isEmpty
  | a :: t => pat.isPrefixOf (a :: t) || listContainsSub pat t

/-- The test `hay.find(pat) != std::string::npos` of std::string. -/
def substrContains (hay pat : String) : Bool :=
  listContainsSub pat.data hay.data

/-- A realized AVHWDeviceContext, keeping the fields the source reads:
the device type, whether the type-specific payload pointer (`hwctx`)
is non-null, and the type of the child context stored in the user data
slot by hw_create_derived_context, if any (`none` models a null user
data pointer). -/
structure AVHWDeviceCtx where
  type : AVHWDeviceType
  hwctx : Bool
  childType : Option AVHWDeviceType
  deriving DecidableEq

/-- The local `device_name` of hw_check_device (line 188): declared
empty and never populated by any capability query before being tested
against the substring filter. -/
def hw_device_name : String := ""

/-- hw_check_device (lines 177-208). `none` models a null AVBufferRef. -/
def hw_check_device (ctx : Option AVHWDeviceCtx) (hw_type : AVHWDeviceType)
    (device_subname : String) : Bool :=
  match ctx with
  | none => false
  | some hw_device_ctx =>
    if hw_device_ctx.hwctx = false then false
    else
      let ret : Bool :=
        if hw_device_ctx.type = AV_HWDEVICE_TYPE_VAAPI then
          decide (hw_type ≠ AV_HWDEVICE_TYPE_QSV)
        else true
      let device_name := hw_device_name
      if ret = true ∧ device_subname ≠ "" ∧ substrContains device_name device_subname = false
      then false
      else ret

/-- hw_create_derived_context (lines 210-238), success value only: the
library call av_hwdevice_ctx_create_derived is the oracle `derive`; on
success the source stores an owning reference to the child context in
the user data slot of the derived context (modelled by `childType`).
The reference-count consequences are modelled separately by `RcState`. -/
def hw_create_derived_context
    (derive : AVHWDeviceType → AVHWDeviceCtx → Option AVHWDeviceCtx)
    (hw_type : AVHWDeviceType) (hw_device_ctx : AVHWDeviceCtx) :
    Option AVHWDeviceCtx :=
  match derive hw_type hw_device_ctx with
  | none => none
  | some derived_ctx => some { derived_ctx with childType := some hw_device_ctx.type }

/-- Loop body of hw_create_device (lines 256-292) over the stage list.
`create` is the oracle for av_hwdevice_ctx_create: it receives the
stage type and the optional device-selector string and returns the
realized context or `none` for failure. -/
def hw_create_device_loop
    (create : AVHWDeviceType → Option String → Option AVHWDeviceCtx)
    (derive : AVHWDeviceType → AVHWDeviceCtx → Option AVHWDeviceCtx)
    (hw_type : AVHWDeviceType) (hw_device : Int) (device_subname : String) :
    List AVHWDeviceType → Option AVHWDeviceCtx
  | [] => none
  | child_type :: rest =>
    let pdevice : Option String :=
      if 0 ≤ hw_device ∧ hw_device < 100000 then
        some (if child_type = AV_HWDEVICE_TYPE_VAAPI then
                "/dev/dri/renderD" ++ toString (128 + hw_device)
              else toString hw_device)
      else none
    match create child_type pdevice with
    | some hw_device_ctx =>
      if hw_check_device (some hw_device_ctx) hw_type device_subname then
        if hw_type ≠ child_type then
          hw_create_derived_context derive hw_type hw_device_ctx
        else some hw_device_ctx
      else hw_create_device_loop create derive hw_type hw_device device_subname rest
    | none => hw_create_device_loop create derive hw_type hw_device device_subname rest

/-- hw_create_device (lines 241-294). The unused use_opencl flag is
kept for signature fidelity (the source passes it to _UNUSED). -/
def hw_create_device
    (create : AVHWDeviceType → Option String → Option AVHWDeviceCtx)
    (derive : AVHWDeviceType → AVHWDeviceCtx → Option AVHWDeviceCtx)
    (win32 : Bool) (hw_type : AVHWDeviceType) (hw_device : Int)
    (device_subname : String) (_use_opencl : Bool) : Option AVHWDeviceCtx :=
  if hw_type = AV_HWDEVICE_TYPE_NONE then none
  else
    let child_types : List AVHWDeviceType :=
      if hw_type = AV_HWDEVICE_TYPE_QSV then
        if win32 then [AV_HWDEVICE_TYPE_D3D11VA, AV_HWDEVICE_TYPE_DXVA2]
        else [AV_HWDEVICE_TYPE_VAAPI]
      else [hw_type]
    hw_create_device_loop create derive hw_type hw_device device_subname child_types

/-- Reference-count state for the derived-context lifetime protocol of
hw_create_derived_context and hw_create_device: the AVBufferRef counts
of the child and the derived (parent) device buffers, the number of
times the child buffer has been destroyed, and whether the parent holds
the owning child reference stored in its user data slot. -/
structure RcState where
  childRc : Nat
  childFrees : Nat
  derivedRc : Nat
  derivedHasChildRef : Bool
  deriving DecidableEq

/-- av_buffer_unref applied to a reference to the child buffer: the
count drops by one and the buffer is destroyed when it reaches zero. -/
def unrefChild (s : RcState) : RcState :=
  if s.childRc = 1 then { s with childRc := 0, childFrees := s.childFrees + 1 }
  else { s with childRc := s.childRc - 1 }

/-- FreeChildContext free callback installed on the derived context
(lines 225-231, 234): when the derived context is destroyed it unrefs
the stored child reference, if one is present. -/
def freeDerivedCallback (s : RcState) : RcState :=
  if s.derivedHasChildRef then unrefChild { s with derivedHasChildRef := false }
  else s

/-- av_buffer_unref applied to the last reference of the derived
context: runs its free callback; otherwise just drops the count. -/
def unrefDerived (s : RcState) : RcState :=
  if s.derivedRc = 1 then freeDerivedCallback { s with derivedRc := 0 }
  else { s with derivedRc := s.derivedRc - 1 }

/-- Success path of hw_create_derived_context on the counters: the
library hands back a fresh derived buffer with one reference (line
214), and line 233 takes a new reference to the child and stores it in
the user data slot of the derived context. -/
def hw_create_derived_context_rc (s : RcState) : RcState :=
  { s with derivedRc := 1, childRc := s.childRc + 1, derivedHasChildRef := true }

/-- The derivation branch of hw_create_device (lines 280-281) on the
counters: derive, then drop the local child reference. -/
def hw_create_device_derived_rc (s : RcState) : RcState :=
  unrefChild (hw_create_derived_context_rc s)

/-- An AVHWFramesContext descriptor with the fields the source touches:
dimensions, hardware format, software-plane format and the initial pool
size. -/
structure AVHWFramesCtx where
  width : Int
  height : Int
  format : AVPixelFormat
  sw_format : AVPixelFormat
  initial_pool_size : Nat
  deriving DecidableEq

/-- A frame pool as returned by hw_create_frames: its frames context,
plus the back-reference the derived path stores in the user data slot
of the derived pool (line 365); `none` on the direct path. -/
structure FramePool where
  fctx : AVHWFramesCtx
  backref : Option AVHWFramesCtx
  deriving DecidableEq

/-- Oracle bundle for the external library calls made by
hw_create_frames. Each call site occurs at most once per invocation, so
one return value per call models the library fully generally. -/
structure FramesEnv where
  getParams : Option AVHWFramesCtx
  allocFrames : Option AVHWFramesCtx
  constraints : Option (List AVPixelFormat)
  initOk : AVHWFramesCtx → Bool
  deriveFrames : Option AVHWFramesCtx

/-- The initial frames descriptor obtained by lines 308-319: the result
of avcodec_get_hw_frames_parameters when a codec context is present,
falling back to av_hwframe_ctx_alloc when that produced nothing. -/
def framesInitial (env : FramesEnv) (codec_present : Bool) : Option AVHWFramesCtx :=
  match (if codec_present then env.getParams else none) with
  | some f => some f
  | none => env.allocFrames

/-- Whether hw_create_frames allocates against the device context
itself (lines 299-307): true unless the device is QSV with a stored
child context that is not DXVA2, in which case allocation happens
against that child context. -/
def framesChildIsDevice (dev : AVHWDeviceCtx) : Bool :=
  match dev.type, dev.childType with
  | AV_HWDEVICE_TYPE_QSV, some ct => decide (ct = AV_HWDEVICE_TYPE_DXVA2)
  | _, _ => true

/-- Field-filling stage of hw_create_frames (lines 326-344): width and
height are always overwritten; the hardware format, when unset, comes
from the request on the direct path or from the first valid format of
the child constraints on the derived path; software format and pool
size receive the fixed defaults only when unset. -/
def framesFill (f : AVHWFramesCtx) (child_is_device : Bool)
    (constraints : Option (List AVPixelFormat)) (width height : Int)
    (hw_format : AVPixelFormat) : AVHWFramesCtx :=
  let f := { f with width := width, height := height }
  let f :=
    if f.format = AV_PIX_FMT_NONE then
      if child_is_device then { f with format := hw_format }
      else
        match constraints with
        | some valid_hw_formats =>
            { f with format := valid_hw_formats.headD AV_PIX_FMT_NONE }
        | none => f
    else f
  let f := if f.sw_format = AV_PIX_FMT_NONE then { f with sw_format := HW_DEFAULT_SW_FORMAT } else f
  if f.initial_pool_size = 0 then { f with initial_pool_size := HW_DEFAULT_POOL_SIZE } else f

/-- hw_create_frames (lines 296-372). `codec_present` states whether a
codec context was supplied; failure of av_hwframe_ctx_init or of
av_hwframe_ctx_create_derived yields `none` exactly as the source
returns NULL there. -/
def hw_create_frames (env : FramesEnv) (codec_present : Bool)
    (dev : AVHWDeviceCtx) (width height : Int) (hw_format : AVPixelFormat) :
    Option FramePool :=
  let child_is_device := framesChildIsDevice dev
  match framesInitial env codec_present with
  | none => none
  | some f0 =>
    let frames_ctx := framesFill f0 child_is_device env.constraints width height hw_format
    if env.initOk frames_ctx = false then none
    else
      if child_is_device then some { fctx := frames_ctx, backref := none }
      else
        match env.deriveFrames with
        | none => none
        | some derived => some { fctx := derived, backref := some frames_ctx }

/-- One structured hardware configuration entry of a codec
(AVCodecHWConfig): its device type, pixel format, and whether its
methods include AV_CODEC_HW_CONFIG_METHOD_HW_FRAMES_CTX. -/
structure AVCodecHWConfig where
  device_type : AVHWDeviceType
  pix_fmt : AVPixelFormat
  methods_hw_frames_ctx : Bool
  deriving DecidableEq

/-- A codec implementation descriptor with the fields hw_find_codec
reads. `pix_fmts` is `none` for a null pointer, otherwise the entries
before the AV_PIX_FMT_NONE terminator; `hw_configs` is the sequence
avcodec_get_hw_config yields until NULL. -/
structure AVCodec where
  name : String
  id : Nat
  experimental : Bool
  is_encoder : Bool
  pix_fmts : Option (List AVPixelFormat)
  hw_configs : List AVCodecHWConfig
  deriving DecidableEq

/-- Tokenization of the std::getline loop of hw_check_codec on the
comma delimiter: the empty input yields one empty token and a trailing
comma yields a trailing empty token, exactly as the good()-guarded
getline loop behaves. -/
def splitCommaAux : List Char → List Char → List String
  | [], acc => [String.mk acc.reverse]
  | c :: t, acc =>
    if c = ',' then String.mk acc.reverse :: splitCommaAux t []
    else splitCommaAux t (c :: acc)

/-- Comma tokenization of a string, see splitCommaAux. -/
def splitComma (s : String) : List String :=
  splitCommaAux s.data []

/-- hw_check_codec (lines 374-389): tokenize the disabled list on
commas exactly as the std::getline loop does and reject on any of the
four token forms. -/
def hw_check_codec (codec : AVCodec) (hw_type : AVHWDeviceType)
    (disabled_codecs : String) : Bool :=
  let hw_name := "." ++ av_hwdevice_get_type_name hw_type
  (splitComma disabled_codecs).all fun name =>
    ¬ (name = codec.name ∨ name = hw_name ∨ name = codec.name ++ hw_name ∨ name = "hw")

/-- Encoder native-format scan of hw_find_codec (lines 412-420): walk
the supported pixel formats; at each occurrence of the native format
record it into the output slot and consult the disable-check, returning
the codec on pass. -/
def encoderNativeScan (c : AVCodec) (hw_native_fmt : AVPixelFormat)
    (hw_type : AVHWDeviceType) (disabled_codecs : String) :
    List AVPixelFormat → AVPixelFormat → Option AVCodec × AVPixelFormat
  | [], hw_pix_fmt => (none, hw_pix_fmt)
  | f :: rest, hw_pix_fmt =>
    if f = hw_native_fmt then
      if hw_check_codec c hw_type disabled_codecs then (some c, hw_native_fmt)
      else encoderNativeScan c hw_native_fmt hw_type disabled_codecs rest hw_native_fmt
    else encoderNativeScan c hw_native_fmt hw_type disabled_codecs rest hw_pix_fmt

/-- Structured hardware-config scan of hw_find_codec (lines 421-430):
for each entry of the requested device type record its pixel format
into the output slot and consult the disable-check, returning the codec
on pass. -/
def hwConfigScan (c : AVCodec) (hw_type : AVHWDeviceType)
    (disabled_codecs : String) :
    List AVCodecHWConfig → AVPixelFormat → Option AVCodec × AVPixelFormat
  | [], hw_pix_fmt => (none, hw_pix_fmt)
  | cfg :: rest, hw_pix_fmt =>
    if cfg.device_type = hw_type then
      if hw_check_codec c hw_type disabled_codecs then (some c, cfg.pix_fmt)
      else hwConfigScan c hw_type disabled_codecs rest cfg.pix_fmt
    else hwConfigScan c hw_type disabled_codecs rest hw_pix_fmt

/-- Native pixel format shortcut of hw_find_codec (lines 405-411):
VAAPI maps to a fixed native format only when the library predates
avcodec_get_hw_config support for VAAPI encoders (`old_vaapi` models
the LIBAVUTIL_BUILD version test); CUDA always maps to its native
format. -/
def hwNativeFmt (old_vaapi : Bool) (hw_type : AVHWDeviceType) : AVPixelFormat :=
  let f := if old_vaapi ∧ hw_type = AV_HWDEVICE_TYPE_VAAPI then AV_PIX_FMT_VAAPI_VLD
           else AV_PIX_FMT_NONE
  if hw_type = AV_HWDEVICE_TYPE_CUDA then AV_PIX_FMT_CUDA else f

/-- Main enumeration loop of hw_find_codec (lines 391-437) over the
registered codec list, threading the hw_pix_fmt output slot. -/
def hw_find_codec_loop (id : Nat) (hw_type : AVHWDeviceType)
    (check_category : AVCodec → Bool) (disabled_codecs : String)
    (old_vaapi : Bool) :
    List AVCodec → AVPixelFormat → Option AVCodec × AVPixelFormat
  | [], hw_pix_fmt => (none, hw_pix_fmt)
  | c :: rest, hw_pix_fmt =>
    if check_category c = false then
      hw_find_codec_loop id hw_type check_category disabled_codecs old_vaapi rest hw_pix_fmt
    else if c.id ≠ id then
      hw_find_codec_loop id hw_type check_category disabled_codecs old_vaapi rest hw_pix_fmt
    else if c.experimental then
      hw_find_codec_loop id hw_type check_category disabled_codecs old_vaapi rest hw_pix_fmt
    else if hw_type ≠ AV_HWDEVICE_TYPE_NONE then
      let hw_native_fmt := hwNativeFmt old_vaapi hw_type
      let step1 :=
        match c.is_encoder, hw_native_fmt, c.pix_fmts with
        | true, AV_PIX_FMT_NONE, _ => (none, hw_pix_fmt)
        | true, _, some pix_fmts =>
            encoderNativeScan c hw_native_fmt hw_type disabled_codecs pix_fmts hw_pix_fmt
        | _, _, _ => (none, hw_pix_fmt)
      match step1 with
      | (some found, s) => (some found, s)
      | (none, s) =>
        match hwConfigScan c hw_type disabled_codecs c.hw_configs s with
        | (some found, s2) => (some found, s2)
        | (none, s2) =>
          hw_find_codec_loop id hw_type check_category disabled_codecs old_vaapi rest s2
    else (some c, hw_pix_fmt)

/-- hw_find_codec (lines 391-437): enumeration order is the order of
the supplied codec list; the second component is the final value of the
hw_pix_fmt output parameter, whose initial value is threaded in. -/
def hw_find_codec (codecs : List AVCodec) (id : Nat) (hw_type : AVHWDeviceType)
    (check_category : AVCodec → Bool) (disabled_codecs : String)
    (old_vaapi : Bool) (hw_pix_fmt : AVPixelFormat) :
    Option AVCodec × AVPixelFormat :=
  hw_find_codec_loop id hw_type check_category disabled_codecs old_vaapi codecs hw_pix_fmt

/-- The fields of the AVCodecContext that hw_get_format_callback reads:
the attached device context (null modelled by `none`), the structured
hardware configurations of the active codec, and the current coded
dimensions. -/
structure CodecCtx where
  hw_device : Option AVHWDeviceCtx
  codec_hw_configs : List AVCodecHWConfig
  width : Int
  height : Int

/-- Inner loop of hw_get_format_callback (lines 450-461): walk the
offered formats for one matching hardware configuration entry; on a
format equal to the entry whose methods include HW_FRAMES_CTX, attempt
frame-pool construction and return the format on success, otherwise
keep scanning. -/
def tryFormats (env : FramesEnv) (dev : AVHWDeviceCtx) (width height : Int)
    (cfg : AVCodecHWConfig) : List AVPixelFormat → Option AVPixelFormat
  | [] => none
  | f :: rest =>
    if f = cfg.pix_fmt ∧ cfg.methods_hw_frames_ctx then
      match hw_create_frames env true dev width height f with
      | some _ => some f
      | none => tryFormats env dev width height cfg rest
    else tryFormats env dev width height cfg rest

/-- Outer loop of hw_get_format_callback (lines 445-463): walk the
hardware configuration entries of the codec, trying the offered formats
for each entry of the active device type. -/
def tryConfigs (env : FramesEnv) (dev : AVHWDeviceCtx) (width height : Int)
    (fmt : List AVPixelFormat) : List AVCodecHWConfig → Option AVPixelFormat
  | [] => none
  | cfg :: rest =>
    if cfg.device_type = dev.type then
      match tryFormats env dev width height cfg fmt with
      | some f => some f
      | none => tryConfigs env dev width height fmt rest
    else tryConfigs env dev width height fmt rest

/-- hw_get_format_callback (lines 440-466). `fmt` is the NULL-terminated
offered format array without its terminator; the source also assigns
sw_pix_fmt and hw_frames_ctx on the codec context before a successful
return, which does not affect the returned format modelled here. -/
def hw_get_format_callback (env : FramesEnv) (ctx : CodecCtx)
    (fmt : List AVPixelFormat) : AVPixelFormat :=
  match ctx.hw_device with
  | none => fmt.headD AV_PIX_FMT_NONE
  | some dev =>
    match tryConfigs env dev ctx.width ctx.height fmt ctx.codec_hw_configs with
    | some f => f
    | none => fmt.headD AV_PIX_FMT_NONE

/-- The std::istringstream state the HWAccelIterator keeps: the unread
remainder and whether no failure or end-of-file bit is set. A freshly
constructed stream is good even on empty input; a failed extraction
clears goodness. -/
structure IStrStream where
  rem : String
  ok : Bool
  deriving DecidableEq

/-- A stream constructed from a string (line 531). -/
def istreamFresh (s : String) : IStrStream := { rem := s, ok := true }

/-- A default-constructed stream after the failed extraction of lines
526-527: the deliberate broken-stream state. -/
def istreamBroken : IStrStream := { rem := "", ok := false }

/-- The HWAccelIterator state established by its constructor (lines
508-541); parsing state fields beyond the stream are omitted as the
constructor leaves them default. -/
structure HWAccelIter where
  s_stream : IStrStream
  disabled_codecs : String
  deriving DecidableEq

/-- HWAccelIterator constructor (lines 508-541): resolve the candidate
list; when it is empty and the preference is a specific backend, break
the stream so that good() is false before any token is parsed;
otherwise load the list into the stream. -/
def mkHWAccelIterator (va_type : VideoAccelerationType) (isEncoder win32 : Bool)
    (dict : AVDictionary) : HWAccelIter :=
  let accel_list := resolvedAccelList va_type isEncoder win32 dict
  let s_stream :=
    if accel_list = "" ∧ va_type ≠ VIDEO_ACCELERATION_NONE ∧ va_type ≠ VIDEO_ACCELERATION_ANY
    then istreamBroken
    else istreamFresh accel_list
  let disabled_codecs :=
    if va_type ≠ VIDEO_ACCELERATION_NONE then
      if isEncoder then getEncoderDisabledCodecs win32 dict
      else getDecoderDisabledCodecs win32 dict
    else ""
  { s_stream := s_stream, disabled_codecs := disabled_codecs }

/-- HWAccelIterator::good (lines 542-545). -/
def HWAccelIter.good (it : HWAccelIter) : Bool := it.s_stream.ok

theorem candidateBase_spec (va_type : VideoAccelerationType) (isEncoder win32 : Bool)
    (dict : AVDictionary) :
    candidateBase va_type isEncoder win32 dict =
      (av_dict_get dict (specConfigKey isEncoder va_type)).getD
        (specDefaultFragment win32 isEncoder va_type) := by
  cases isEncoder <;> cases va_type <;>
    simp only [candidateBase, getDecoderConfiguration, getEncoderConfiguration,
      specConfigKey, specDefaultFragment, getVideoAccelerationName,
      Bool.false_eq_true, if_false, if_true, ite_false, ite_true] <;>
    (cases av_dict_get dict _ <;> cases win32 <;> simp [Option.getD])

/-- C1 (amended): for every preference P other than None, the resolved
candidate list is the role-specific configuration override verbatim
when the override key is present and the built-in platform default
otherwise, and when P is Any a single trailing empty entry is appended
exactly when that fragment is non-empty (an empty fragment stays empty);
in particular, on a POSIX-like platform with no overrides the decoder
list for Any is exactly "vaapi.iHD,". -/
theorem c1_candidate_list (va_type : VideoAccelerationType) (isEncoder win32 : Bool)
    (dict : AVDictionary) (h : va_type ≠ VIDEO_ACCELERATION_NONE) :
    (resolvedAccelList va_type isEncoder win32 dict =
      (let base := (av_dict_get dict (specConfigKey isEncoder va_type)).getD
          (specDefaultFragment win32 isEncoder va_type)
       if va_type = VIDEO_ACCELERATION_ANY ∧ base ≠ "" then base ++ "," else base))
    ∧ resolvedAccelList VIDEO_ACCELERATION_ANY false false [] = "vaapi.iHD," := by
  refine ⟨?_, by decide⟩
  simp only [resolvedAccelList, if_pos h, ← candidateBase_spec va_type isEncoder win32 dict]

/-- Witness for c1_candidate_list at a concrete specific preference. -/
theorem c1_candidate_list_witness :
    resolvedAccelList VIDEO_ACCELERATION_VAAPI false false [] =
      (let base := (av_dict_get [] (specConfigKey false VIDEO_ACCELERATION_VAAPI)).getD
          (specDefaultFragment false false VIDEO_ACCELERATION_VAAPI)
       if VIDEO_ACCELERATION_VAAPI = VIDEO_ACCELERATION_ANY ∧ base ≠ ""
       then base ++ "," else base) :=
  (c1_candidate_list VIDEO_ACCELERATION_VAAPI false false [] (by decide)).1

/-- Counterexample to C1 as stated: with preference Any and the decoder
override key present with an empty value, the resolved candidate list
is empty; no trailing empty entry is appended, contradicting the claim
that for Any exactly one trailing empty entry is always appended to the
override fragment. -/
theorem c1_candidate_list_cex :
    ¬ (resolvedAccelList VIDEO_ACCELERATION_ANY false false [("hw_decoders_any", "")] =
       ((av_dict_get [("hw_decoders_any", "")] (specConfigKey false VIDEO_ACCELERATION_ANY)).getD
         (specDefaultFragment false false VIDEO_ACCELERATION_ANY)) ++ ",") := by
  decide

theorem string_data_ne_nil {s : String} (h : s ≠ "") : s.data ≠ [] := by
  intro hd
  apply h
  cases s
  simp_all

theorem substrContains_empty_hay {pat : String} (h : pat ≠ "") :
    substrContains "" pat = false := by
  simp only [substrContains, listContainsSub]
  have := string_data_ne_nil h
  simp [List.isEmpty_iff, this]

theorem hw_check_device_reject_of_subname (ctx : Option AVHWDeviceCtx)
    (hw_type : AVHWDeviceType) (device_subname : String)
    (hsub : device_subname ≠ "") :
    hw_check_device ctx hw_type device_subname = false := by
  cases ctx with
  | none => rfl
  | some c =>
    simp only [hw_check_device]
    cases hc : c.hwctx with
    | false => simp
    | true =>
      simp only [Bool.true_eq_false, if_false]
      have hname : substrContains hw_device_name device_subname = false :=
        substrContains_empty_hay hsub
      by_cases hret :
          (if c.type = AV_HWDEVICE_TYPE_VAAPI
           then decide (hw_type ≠ AV_HWDEVICE_TYPE_QSV) else true) = true
      · rw [if_pos ⟨hret, hsub, hname⟩]
      · rw [if_neg (fun hand => hret hand.1)]
        exact Bool.of_not_eq_true hret

/-- C2: for every realized device context and every non-empty
device-name substring filter, validation rejects the context whenever
the device name tested (the local device_name of hw_check_device, never
populated by any capability query) does not contain the filter
substring, even if the context is otherwise valid. -/
theorem c2_subname_filter_rejects (ctx : Option AVHWDeviceCtx)
    (hw_type : AVHWDeviceType) (device_subname : String)
    (hsub : device_subname ≠ "")
    (hmiss : substrContains hw_device_name device_subname = false) :
    hw_check_device ctx hw_type device_subname = false := by
  cases ctx with
  | none => rfl
  | some c =>
    simp only [hw_check_device]
    cases hc : c.hwctx with
    | false => simp
    | true =>
      simp only [Bool.true_eq_false, if_false]
      by_cases hret :
          (if c.type = AV_HWDEVICE_TYPE_VAAPI
           then decide (hw_type ≠ AV_HWDEVICE_TYPE_QSV) else true) = true
      · rw [if_pos ⟨hret, hsub, hmiss⟩]
      · rw [if_neg (fun hand => hret hand.1)]
        exact Bool.of_not_eq_true hret

/-- Witness for c2_subname_filter_rejects on an otherwise fully valid
context. -/
theorem c2_subname_filter_rejects_witness :
    hw_check_device
      (some { type := AV_HWDEVICE_TYPE_D3D11VA, hwctx := true, childType := none })
      AV_HWDEVICE_TYPE_D3D11VA "iHD" = false :=
  c2_subname_filter_rejects
    (some { type := AV_HWDEVICE_TYPE_D3D11VA, hwctx := true, childType := none })
    AV_HWDEVICE_TYPE_D3D11VA "iHD" (by decide) (by decide)

/-- C3: with any non-empty device-name substring filter,
hw_check_device rejects every context unconditionally, because the
internal device_name string is never populated, so the containment test
can never succeed. -/
theorem c3_subname_filter_never_matches (ctx : Option AVHWDeviceCtx)
    (hw_type : AVHWDeviceType) (device_subname : String)
    (hsub : device_subname ≠ "") :
    hw_check_device ctx hw_type device_subname = false :=
  hw_check_device_reject_of_subname ctx hw_type device_subname hsub

/-- Witness for c3_subname_filter_never_matches on a valid VAAPI
context probed for VAAPI itself. -/
theorem c3_subname_filter_never_matches_witness :
    hw_check_device
      (some { type := AV_HWDEVICE_TYPE_VAAPI, hwctx := true, childType := none })
      AV_HWDEVICE_TYPE_VAAPI "CustomGPU" = false :=
  c3_subname_filter_never_matches
    (some { type := AV_HWDEVICE_TYPE_VAAPI, hwctx := true, childType := none })
    AV_HWDEVICE_TYPE_VAAPI "CustomGPU" (by decide)

/-- C10: for a specific-backend preference (neither None nor Any) whose
resolved candidate list is empty, the iterator constructor puts its
stream into the broken state, so good() reports false before any token
is parsed and the outer negotiation loop falls through to software
processing. -/
theorem c10_empty_list_not_good (va_type : VideoAccelerationType)
    (isEncoder win32 : Bool) (dict : AVDictionary)
    (h1 : va_type ≠ VIDEO_ACCELERATION_NONE)
    (h2 : va_type ≠ VIDEO_ACCELERATION_ANY)
    (hempty : resolvedAccelList va_type isEncoder win32 dict = "") :
    (mkHWAccelIterator va_type isEncoder win32 dict).good = false := by
  simp [mkHWAccelIterator, HWAccelIter.good, hempty, h1, h2, istreamBroken]

/-- Witness for c10_empty_list_not_good: D3D11 preference for a decoder
on a POSIX-like platform with no overrides resolves to an empty list. -/
theorem c10_empty_list_not_good_witness :
    (mkHWAccelIterator VIDEO_ACCELERATION_D3D11 false false []).good = false :=
  c10_empty_list_not_good VIDEO_ACCELERATION_D3D11 false false []
    (by decide) (by decide) (by decide)

theorem hw_check_device_vaapi_for_qsv (c : AVHWDeviceCtx)
    (hvaapi : c.type = AV_HWDEVICE_TYPE_VAAPI) (sub : String) :
    hw_check_device (some c) AV_HWDEVICE_TYPE_QSV sub = false := by
  simp only [hw_check_device]
  cases hc : c.hwctx with
  | false => simp
  | true =>
    simp only [Bool.true_eq_false, if_false]
    rw [if_pos hvaapi]
    simp

/-- C4: on a non-Windows platform, hw_create_device with the QSV
backend returns no context for every device index, every substring
filter and every behavior of the library creation and derivation calls
that realizes contexts of the requested type: the only child stage is
VAAPI, and validation rejects every VAAPI child when the requested
parent type is QSV, so derivation is unreachable. -/
theorem c4_qsv_posix_no_context
    (create : AVHWDeviceType → Option String → Option AVHWDeviceCtx)
    (derive : AVHWDeviceType → AVHWDeviceCtx → Option AVHWDeviceCtx)
    (hw_device : Int) (device_subname : String) (use_ocl : Bool)
    (hcreate : ∀ t s c, create t s = some c → c.type = t) :
    hw_create_device create derive false AV_HWDEVICE_TYPE_QSV hw_device
      device_subname use_ocl = none := by
  simp only [hw_create_device, reduceIte, reduceCtorEq, if_false, ite_false]
  simp only [hw_create_device_loop]
  cases hc : create AV_HWDEVICE_TYPE_VAAPI
      (if 0 ≤ hw_device ∧ hw_device < 100000 then
        some ("/dev/dri/renderD" ++ toString (128 + hw_device))
       else none) with
  | none => simp [hc]
  | some c =>
    have htype : c.type = AV_HWDEVICE_TYPE_VAAPI := hcreate _ _ _ hc
    simp [hc, hw_check_device_vaapi_for_qsv c htype device_subname]

/-- Witness for c4_qsv_posix_no_context with a creation oracle that
always succeeds with a fully populated context of the requested type. -/
theorem c4_qsv_posix_no_context_witness :
    hw_create_device
      (fun t _ => some { type := t, hwctx := true, childType := none })
      (fun t c => some { type := t, hwctx := true, childType := some c.type })
      false AV_HWDEVICE_TYPE_QSV 0 "" false = none :=
  c4_qsv_posix_no_context
    (fun t _ => some { type := t, hwctx := true, childType := none })
    (fun t c => some { type := t, hwctx := true, childType := some c.type })
    0 "" false
    (fun t s c h => by
      have : ({ type := t, hwctx := true, childType := none } : AVHWDeviceCtx) = c :=
        Option.some.inj h
      rw [← this])

/-- C5: the derived-context lifetime protocol. Starting from a child
buffer with n+1 references (one of them the local reference held by
hw_create_device) and f0 prior destructions, the success path of
hw_create_derived_context followed by the release of the local child
reference leaves the parent holding a non-null owning reference to the
still-alive child; releasing the parent then releases the retained
child reference exactly once, dropping the child count from n+1 to n
and destroying the child exactly once precisely when the parent held
the last reference, with no double release and no leaked reference. -/
theorem c5_derived_context_lifetime (n f0 : Nat) :
    (hw_create_device_derived_rc
        { childRc := n + 1, childFrees := f0, derivedRc := 0,
          derivedHasChildRef := false }).derivedHasChildRef = true ∧
    (hw_create_device_derived_rc
        { childRc := n + 1, childFrees := f0, derivedRc := 0,
          derivedHasChildRef := false }).childRc = n + 1 ∧
    (hw_create_device_derived_rc
        { childRc := n + 1, childFrees := f0, derivedRc := 0,
          derivedHasChildRef := false }).derivedRc = 1 ∧
    (hw_create_device_derived_rc
        { childRc := n + 1, childFrees := f0, derivedRc := 0,
          derivedHasChildRef := false }).childFrees = f0 ∧
    (unrefDerived (hw_create_device_derived_rc
        { childRc := n + 1, childFrees := f0, derivedRc := 0,
          derivedHasChildRef := false })).childRc = n ∧
    (unrefDerived (hw_create_device_derived_rc
        { childRc := n + 1, childFrees := f0, derivedRc := 0,
          derivedHasChildRef := false })).derivedHasChildRef = false ∧
    (unrefDerived (hw_create_device_derived_rc
        { childRc := n + 1, childFrees := f0, derivedRc := 0,
          derivedHasChildRef := false })).childFrees =
      (if n = 0 then f0 + 1 else f0) := by
  cases n <;>
    simp [hw_create_device_derived_rc, hw_create_derived_context_rc,
      unrefDerived, freeDerivedCallback, unrefChild]

theorem framesFill_spec (f : AVHWFramesCtx) (cid : Bool)
    (cons : Option (List AVPixelFormat)) (w h : Int) (fmt : AVPixelFormat) :
    (framesFill f cid cons w h fmt).width = w ∧
    (framesFill f cid cons w h fmt).height = h ∧
    (framesFill f cid cons w h fmt).sw_format =
      (if f.sw_format = AV_PIX_FMT_NONE then HW_DEFAULT_SW_FORMAT else f.sw_format) ∧
    (framesFill f cid cons w h fmt).initial_pool_size =
      (if f.initial_pool_size = 0 then HW_DEFAULT_POOL_SIZE else f.initial_pool_size) := by
  dsimp only [framesFill]
  cases cid <;> cases cons <;>
    by_cases h1 : f.format = AV_PIX_FMT_NONE <;>
    by_cases h2 : f.sw_format = AV_PIX_FMT_NONE <;>
    by_cases h3 : f.initial_pool_size = 0 <;>
    simp_all

/-- C6: for every successfully built frame pool, the frames descriptor
the builder filled and initialized (the pool itself on the direct path,
or the descriptor kept as the back-reference of the derived pool) has
width and height equal to the requested values regardless of the prior
contents supplied by the capability query, its software format is the
fixed NV12 default exactly when the query left it unset, and its
initial pool size is 32 exactly when the query left it unset. -/
theorem c6_frames_defaults (env : FramesEnv) (codec_present : Bool)
    (dev : AVHWDeviceCtx) (width height : Int) (hw_format : AVPixelFormat)
    (pool : FramePool)
    (hpool : hw_create_frames env codec_present dev width height hw_format = some pool) :
    ∃ f0, framesInitial env codec_present = some f0 ∧
      (pool.backref.getD pool.fctx).width = width ∧
      (pool.backref.getD pool.fctx).height = height ∧
      (pool.backref.getD pool.fctx).sw_format =
        (if f0.sw_format = AV_PIX_FMT_NONE then HW_DEFAULT_SW_FORMAT else f0.sw_format) ∧
      (pool.backref.getD pool.fctx).initial_pool_size =
        (if f0.initial_pool_size = 0 then HW_DEFAULT_POOL_SIZE
         else f0.initial_pool_size) := by
  unfold hw_create_frames at hpool
  cases hf : framesInitial env codec_present with
  | none => rw [hf] at hpool; exact absurd hpool (by simp)
  | some f0 =>
    rw [hf] at hpool
    refine ⟨f0, rfl, ?_⟩
    simp only at hpool
    rcases hinit : env.initOk
        (framesFill f0 (framesChildIsDevice dev) env.constraints width height hw_format) with _ | _
    · rw [hinit] at hpool; exact absurd hpool (by simp)
    · rw [hinit] at hpool
      simp only [Bool.true_eq_false, if_false, ite_false] at hpool
      cases hcid : framesChildIsDevice dev with
      | true =>
        rw [hcid] at hpool
        simp only [if_true, ite_true, Option.some.injEq] at hpool
        rw [← hpool]
        simpa using framesFill_spec f0 true env.constraints width height hw_format
      | false =>
        rw [hcid] at hpool
        simp only [Bool.false_eq_true, if_false, ite_false] at hpool
        cases hd : env.deriveFrames with
        | none => rw [hd] at hpool; exact absurd hpool (by simp)
        | some derived =>
          rw [hd] at hpool
          simp only [Option.some.injEq] at hpool
          rw [← hpool]
          simpa using framesFill_spec f0 false env.constraints width height hw_format

/-- Witness for c6_frames_defaults: a capability query returning a
blank descriptor, direct allocation on a VAAPI device, successful
initialization. -/
theorem c6_frames_defaults_witness :
    ∃ f0,
      framesInitial
        { getParams := some { width := 0, height := 0, format := AV_PIX_FMT_NONE,
                              sw_format := AV_PIX_FMT_NONE, initial_pool_size := 0 },
          allocFrames := none, constraints := none,
          initOk := fun _ => true, deriveFrames := none } true = some f0 ∧
      (({ fctx := { width := 640, height := 480, format := AV_PIX_FMT_OTHER 7,
                    sw_format := AV_PIX_FMT_NV12, initial_pool_size := 32 },
          backref := none } : FramePool).backref.getD
        ({ fctx := { width := 640, height := 480, format := AV_PIX_FMT_OTHER 7,
                     sw_format := AV_PIX_FMT_NV12, initial_pool_size := 32 },
           backref := none } : FramePool).fctx).width = 640 ∧
      (({ fctx := { width := 640, height := 480, format := AV_PIX_FMT_OTHER 7,
                    sw_format := AV_PIX_FMT_NV12, initial_pool_size := 32 },
          backref := none } : FramePool).backref.getD
        ({ fctx := { width := 640, height := 480, format := AV_PIX_FMT_OTHER 7,
                     sw_format := AV_PIX_FMT_NV12, initial_pool_size := 32 },
           backref := none } : FramePool).fctx).height = 480 ∧
      (({ fctx := { width := 640, height := 480, format := AV_PIX_FMT_OTHER 7,
                    sw_format := AV_PIX_FMT_NV12, initial_pool_size := 32 },
          backref := none } : FramePool).backref.getD
        ({ fctx := { width := 640, height := 480, format := AV_PIX_FMT_OTHER 7,
                     sw_format := AV_PIX_FMT_NV12, initial_pool_size := 32 },
           backref := none } : FramePool).fctx).sw_format =
        (if f0.sw_format = AV_PIX_FMT_NONE then HW_DEFAULT_SW_FORMAT
         else f0.sw_format) ∧
      (({ fctx := { width := 640, height := 480, format := AV_PIX_FMT_OTHER 7,
                    sw_format := AV_PIX_FMT_NV12, initial_pool_size := 32 },
          backref := none } : FramePool).backref.getD
        ({ fctx := { width := 640, height := 480, format := AV_PIX_FMT_OTHER 7,
                     sw_format := AV_PIX_FMT_NV12, initial_pool_size := 32 },
           backref := none } : FramePool).fctx).initial_pool_size =
        (if f0.initial_pool_size = 0 then HW_DEFAULT_POOL_SIZE
         else f0.initial_pool_size) :=
  c6_frames_defaults
    { getParams := some { width := 0, height := 0, format := AV_PIX_FMT_NONE,
                          sw_format := AV_PIX_FMT_NONE, initial_pool_size := 0 },
      allocFrames := none, constraints := none,
      initOk := fun _ => true, deriveFrames := none }
    true { type := AV_HWDEVICE_TYPE_VAAPI, hwctx := true, childType := none }
    640 480 (AV_PIX_FMT_OTHER 7)
    { fctx := { width := 640, height := 480, format := AV_PIX_FMT_OTHER 7,
                sw_format := AV_PIX_FMT_NV12, initial_pool_size := 32 },
      backref := none }
    (by decide)

/-- C7: the disable-check vetoes the codec if and only if some
comma-separated token of the disabled list equals the bare codec name,
the bare dotted backend suffix, the codec-name plus suffix
concatenation, or the literal hw; in particular a list containing the
token hw rejects every hardware candidate for every backend. -/
theorem c7_disable_check (codec : AVCodec) (hw_type : AVHWDeviceType)
    (disabled_codecs : String) :
    (hw_check_codec codec hw_type disabled_codecs = false ↔
      ∃ name ∈ splitComma disabled_codecs,
        (name = codec.name ∨
         name = "." ++ av_hwdevice_get_type_name hw_type ∨
         name = codec.name ++ ("." ++ av_hwdevice_get_type_name hw_type) ∨
         name = "hw"))
    ∧ ("hw" ∈ splitComma disabled_codecs →
        hw_check_codec codec hw_type disabled_codecs = false) := by
  have hiff : hw_check_codec codec hw_type disabled_codecs = false ↔
      ∃ name ∈ splitComma disabled_codecs,
        (name = codec.name ∨
         name = "." ++ av_hwdevice_get_type_name hw_type ∨
         name = codec.name ++ ("." ++ av_hwdevice_get_type_name hw_type) ∨
         name = "hw") := by
    constructor
    · intro hfalse
      by_contra hne
      push_neg at hne
      have htrue : hw_check_codec codec hw_type disabled_codecs = true := by
        simp only [hw_check_codec, List.all_eq_true, decide_eq_true_eq]
        intro name hmem hA
        rcases hne name hmem with ⟨ha, hb, hc, hd⟩
        rcases hA with h | h | h | h
        · exact ha h
        · exact hb h
        · exact hc h
        · exact hd h
      rw [htrue] at hfalse
      exact Bool.noConfusion hfalse
    · rintro ⟨name, hmem, hA⟩
      rw [← Bool.not_eq_true]
      intro htrue
      simp only [hw_check_codec, List.all_eq_true, decide_eq_true_eq] at htrue
      exact (htrue name hmem) (by tauto)
  exact ⟨hiff, fun hmem => hiff.2 ⟨"hw", hmem, Or.inr (Or.inr (Or.inr rfl))⟩⟩

/-- Witness for c7_disable_check: the single token hw vetoes an h264
candidate on VAAPI. -/
theorem c7_disable_check_witness :
    hw_check_codec
      { name := "h264", id := 27, experimental := false, is_encoder := false,
        pix_fmts := none, hw_configs := [] }
      AV_HWDEVICE_TYPE_VAAPI "hw" = false :=
  (c7_disable_check
    { name := "h264", id := 27, experimental := false, is_encoder := false,
      pix_fmts := none, hw_configs := [] }
    AV_HWDEVICE_TYPE_VAAPI "hw").2 (by decide)

/-- C8: codec selection with backend tag none returns the first
enumerated codec implementation that passes the category-check
predicate, matches the codec id and is not flagged experimental, for
every disabled-codec list and with the hardware pixel format output
slot left untouched. -/
theorem c8_software_codec_selection (codecs : List AVCodec) (id : Nat)
    (check_category : AVCodec → Bool) (disabled_codecs : String)
    (old_vaapi : Bool) (hw_pix_fmt : AVPixelFormat) :
    hw_find_codec codecs id AV_HWDEVICE_TYPE_NONE check_category disabled_codecs
        old_vaapi hw_pix_fmt =
      (List.find? (fun c => check_category c && decide (c.id = id) && ! c.experimental)
         codecs,
       hw_pix_fmt) := by
  induction codecs with
  | nil => rfl
  | cons c rest ih =>
    simp only [hw_find_codec] at ih ⊢
    by_cases h1 : check_category c = true
    · by_cases h2 : c.id = id
      · by_cases h3 : c.experimental = true
        · rw [List.find?_cons_of_neg _ (by simp [h1, h2, h3])]
          simp only [hw_find_codec_loop, h1, h2, h3]
          simpa [h1, h2, h3] using ih
        · rw [List.find?_cons_of_pos _ (by simp [h1, h2]; simp_all)]
          simp only [hw_find_codec_loop, h1, h2, h3]
          simp_all
      · rw [List.find?_cons_of_neg _ (by simp [h2])]
        simp only [hw_find_codec_loop, h1, h2]
        simpa [h1, h2] using ih
    · rw [List.find?_cons_of_neg _ (by simp [h1])]
      simp only [hw_find_codec_loop]
      simpa [h1] using ih

theorem headD_mem_of_ne_nil {α : Type} {l : List α} (h : l ≠ []) (d : α) :
    l.headD d ∈ l := by
  cases l with
  | nil => exact absurd rfl h
  | cons a t => simp

theorem tryFormats_mem (env : FramesEnv) (dev : AVHWDeviceCtx) (w h : Int)
    (cfg : AVCodecHWConfig) :
    ∀ (l : List AVPixelFormat) (f : AVPixelFormat),
      tryFormats env dev w h cfg l = some f → f ∈ l := by
  intro l
  induction l with
  | nil => intro f hf; exact absurd hf (by simp [tryFormats])
  | cons a t ih =>
    intro f hf
    simp only [tryFormats] at hf
    by_cases hc : a = cfg.pix_fmt ∧ cfg.methods_hw_frames_ctx = true
    · rw [if_pos hc] at hf
      cases hcr : hw_create_frames env true dev w h a with
      | some p =>
        rw [hcr] at hf
        simp only [Option.some.injEq] at hf
        rw [← hf]
        exact List.mem_cons_self a t
      | none =>
        rw [hcr] at hf
        exact List.mem_cons_of_mem a (ih f hf)
    · rw [if_neg hc] at hf
      exact List.mem_cons_of_mem a (ih f hf)

theorem tryConfigs_mem (env : FramesEnv) (dev : AVHWDeviceCtx) (w h : Int)
    (fmt : List AVPixelFormat) :
    ∀ (cfgs : List AVCodecHWConfig) (f : AVPixelFormat),
      tryConfigs env dev w h fmt cfgs = some f → f ∈ fmt := by
  intro cfgs
  induction cfgs with
  | nil => intro f hf; exact absurd hf (by simp [tryConfigs])
  | cons cfg rest ih =>
    intro f hf
    simp only [tryConfigs] at hf
    by_cases hc : cfg.device_type = dev.type
    · rw [if_pos hc] at hf
      cases htf : tryFormats env dev w h cfg fmt with
      | some g =>
        rw [htf] at hf
        simp only [Option.some.injEq] at hf
        rw [← hf]
        exact tryFormats_mem env dev w h cfg fmt g htf
      | none =>
        rw [htf] at hf
        exact ih f hf
    · rw [if_neg hc] at hf
      exact ih f hf

theorem tryFormats_none_of_nomatch (env : FramesEnv) (dev : AVHWDeviceCtx)
    (w h : Int) (cfg : AVCodecHWConfig) :
    ∀ (l : List AVPixelFormat), cfg.pix_fmt ∉ l →
      tryFormats env dev w h cfg l = none := by
  intro l
  induction l with
  | nil => intro _; rfl
  | cons a t ih =>
    intro hnot
    have ha : ¬ (a = cfg.pix_fmt ∧ cfg.methods_hw_frames_ctx = true) := by
      rintro ⟨h1, _⟩
      exact hnot (h1 ▸ List.mem_cons_self a t)
    simp only [tryFormats, if_neg ha]
    exact ih (fun hm => hnot (List.mem_cons_of_mem a hm))

theorem tryConfigs_none_of_nomatch (env : FramesEnv) (dev : AVHWDeviceCtx)
    (w h : Int) (fmt : List AVPixelFormat) :
    ∀ (cfgs : List AVCodecHWConfig),
      (∀ cfg ∈ cfgs, cfg.device_type = dev.type → cfg.pix_fmt ∉ fmt) →
      tryConfigs env dev w h fmt cfgs = none := by
  intro cfgs
  induction cfgs with
  | nil => intro _; rfl
  | cons cfg rest ih =>
    intro hall
    simp only [tryConfigs]
    by_cases hc : cfg.device_type = dev.type
    · rw [if_pos hc,
        tryFormats_none_of_nomatch env dev w h cfg fmt
          (hall cfg (List.mem_cons_self cfg rest) hc)]
      exact ih (fun c hm => hall c (List.mem_cons_of_mem cfg hm))
    · rw [if_neg hc]
      exact ih (fun c hm => hall c (List.mem_cons_of_mem cfg hm))

theorem tryFormats_none_of_fail (env : FramesEnv) (dev : AVHWDeviceCtx)
    (w h : Int) (cfg : AVCodecHWConfig)
    (hfail : ∀ g, hw_create_frames env true dev w h g = none) :
    ∀ (l : List AVPixelFormat), tryFormats env dev w h cfg l = none := by
  intro l
  induction l with
  | nil => rfl
  | cons a t ih =>
    simp only [tryFormats]
    by_cases hc : a = cfg.pix_fmt ∧ cfg.methods_hw_frames_ctx = true
    · rw [if_pos hc, hfail a]
      exact ih
    · rw [if_neg hc]
      exact ih

theorem tryConfigs_none_of_fail (env : FramesEnv) (dev : AVHWDeviceCtx)
    (w h : Int) (fmt : List AVPixelFormat)
    (hfail : ∀ g, hw_create_frames env true dev w h g = none) :
    ∀ (cfgs : List AVCodecHWConfig), tryConfigs env dev w h fmt cfgs = none := by
  intro cfgs
  induction cfgs with
  | nil => rfl
  | cons cfg rest ih =>
    simp only [tryConfigs]
    by_cases hc : cfg.device_type = dev.type
    · rw [if_pos hc, tryFormats_none_of_fail env dev w h cfg hfail fmt]
      exact ih
    · rw [if_neg hc]
      exact ih

/-- C9: for every non-empty offered-format list, the format-selection
callback returns the first offered format when no device context is
attached; it likewise returns the first offered format when no offered
format matches a hardware-config entry of the active device type, and
when every frame-pool construction attempt fails; and in all cases it
returns some offered format, never an error value. -/
theorem c9_format_callback_fallback (env : FramesEnv) (ctx : CodecCtx)
    (fmt : List AVPixelFormat) (hne : fmt ≠ []) :
    (ctx.hw_device = none →
      hw_get_format_callback env ctx fmt = fmt.headD AV_PIX_FMT_NONE) ∧
    (∀ dev, ctx.hw_device = some dev →
      (∀ cfg ∈ ctx.codec_hw_configs, cfg.device_type = dev.type → cfg.pix_fmt ∉ fmt) →
      hw_get_format_callback env ctx fmt = fmt.headD AV_PIX_FMT_NONE) ∧
    ((∀ (dev : AVHWDeviceCtx) (w h : Int) (g : AVPixelFormat),
        hw_create_frames env true dev w h g = none) →
      hw_get_format_callback env ctx fmt = fmt.headD AV_PIX_FMT_NONE) ∧
    hw_get_format_callback env ctx fmt ∈ fmt := by
  refine ⟨?_, ?_, ?_, ?_⟩
  · intro hdev
    simp [hw_get_format_callback, hdev]
  · intro dev hdev hmiss
    simp [hw_get_format_callback, hdev,
      tryConfigs_none_of_nomatch env dev ctx.width ctx.height fmt
        ctx.codec_hw_configs hmiss]
  · intro hfail
    cases hdev : ctx.hw_device with
    | none => simp [hw_get_format_callback, hdev]
    | some dev =>
      simp [hw_get_format_callback, hdev,
        tryConfigs_none_of_fail env dev ctx.width ctx.height fmt
          (fun g => hfail dev ctx.width ctx.height g) ctx.codec_hw_configs]
  · cases hdev : ctx.hw_device with
    | none =>
      simp only [hw_get_format_callback, hdev]
      exact headD_mem_of_ne_nil hne AV_PIX_FMT_NONE
    | some dev =>
      simp only [hw_get_format_callback, hdev]
      cases htc : tryConfigs env dev ctx.width ctx.height fmt ctx.codec_hw_configs with
      | some f =>
        simpa using tryConfigs_mem env dev ctx.width ctx.height fmt
          ctx.codec_hw_configs f htc
      | none =>
        simp only
        exact headD_mem_of_ne_nil hne AV_PIX_FMT_NONE

/-- Witness for c9_format_callback_fallback: one offered format, no
attached device, and a frames environment that always fails. -/
theorem c9_format_callback_fallback_witness :
    hw_get_format_callback
      { getParams := none, allocFrames := none, constraints := none,
        initOk := fun _ => false, deriveFrames := none }
      { hw_device := none, codec_hw_configs := [], width := 0, height := 0 }
      [AV_PIX_FMT_NV12] = AV_PIX_FMT_NV12 ∧
    hw_get_format_callback
      { getParams := none, allocFrames := none, constraints := none,
        initOk := fun _ => false, deriveFrames := none }
      { hw_device := none, codec_hw_configs := [], width := 0, height := 0 }
      [AV_PIX_FMT_NV12] ∈ [AV_PIX_FMT_NV12] := by
  have h := c9_format_callback_fallback
    { getParams := none, allocFrames := none, constraints := none,
      initOk := fun _ => false, deriveFrames := none }
    { hw_device := none, codec_hw_configs := [], width := 0, height := 0 }
    [AV_PIX_FMT_NV12] (by decide)
  exact ⟨h.1 rfl, h.2.2.2⟩

/-- Witness for c5_derived_context_lifetime at the minimal trace where
the parent holds the last child reference. -/
theorem c5_derived_context_lifetime_witness :
    (unrefDerived (hw_create_device_derived_rc
        { childRc := 0 + 1, childFrees := 0, derivedRc := 0,
          derivedHasChildRef := false })).childFrees =
      (if 0 = 0 then 0 + 1 else 0) :=
  (c5_derived_context_lifetime 0 0).2.2.2.2.2.2

/-- Witness for c8_software_codec_selection on a two-entry codec list
whose first entry is experimental. -/
theorem c8_software_codec_selection_witness :
    hw_find_codec
      [{ name := "h264_exp", id := 27, experimental := true, is_encoder := false,
         pix_fmts := none, hw_configs := [] },
       { name := "h264", id := 27, experimental := false, is_encoder := false,
         pix_fmts := none, hw_configs := [] }]
      27 AV_HWDEVICE_TYPE_NONE (fun _ => true) "hw,h264" false AV_PIX_FMT_NONE =
      (List.find?
        (fun c => (fun _ => true) c && decide (c.id = 27) && ! c.experimental)
        [{ name := "h264_exp", id := 27, experimental := true, is_encoder := false,
           pix_fmts := none, hw_configs := [] },
         { name := "h264", id := 27, experimental := false, is_encoder := false,
           pix_fmts := none, hw_configs := [] }],
       AV_PIX_FMT_NONE) :=
  c8_software_codec_selection
    [{ name := "h264_exp", id := 27, experimental := true, is_encoder := false,
       pix_fmts := none, hw_configs := [] },
     { name := "h264", id := 27, experimental := false, is_encoder := false,
       pix_fmts := none, hw_configs := [] }]
    27 (fun _ => true) "hw,h264" false AV_PIX_FMT_NONE
